import Mathlib

/-!
Verification of the strategy-selection and fallback-orchestration core of the
ResumeParser repository, as a shallow embedding in Lean 4.

Python string values, `None`, and lists crossing the coordinator boundary are
embedded as `PyVal`; Python exceptions are embedded as `Except` errors carrying
an error-kind (`PyErr`), since the claims concern exception kinds rather than
message text.  Machine collaborators (the regex engine, the GLiNER model, the
Gemini client, `json.loads`) are embedded as abstract functions, mirroring the
design document's treatment of them as external collaborators.
-/

set_option maxRecDepth 4096

/-- Python truthiness-relevant values returned by field extractors and stored in
`ResumeData`: `None`, strings, and lists of strings. -/
inductive PyVal where
  | none
  | str (s : String)
  | list (xs : List String)
deriving DecidableEq, Repr

/-- Characters stripped by Python's `str.strip()` with no arguments:
space, tab, newline, carriage return, vertical tab, form feed. -/
def isPySpace (c : Char) : Bool :=
  c = ' ' || c = '\t' || c = '\n' || c = '\r' || c = Char.ofNat 11 || c = Char.ofNat 12

/-- Python `str.strip()`: drop leading and trailing whitespace. -/
def pyStrip (s : String) : String :=
  String.mk (((s.toList.dropWhile isPySpace).reverse.dropWhile isPySpace).reverse)

/-- The check at `resume_extractor.py:120`:
`result is not None and result != [] and result != ""`. -/
def PyVal.meaningful : PyVal → Bool
  | .none => false
  | .str s => s ≠ ""
  | .list xs => xs ≠ []

/-- `FieldType` enumeration from `interfaces/extracting_strategy.py`. -/
inductive FieldType where
  | NAME
  | EMAIL
  | SKILLS
deriving DecidableEq, Repr

/-- `StrategyType` enumeration from `interfaces/extracting_strategy.py`. -/
inductive StrategyType where
  | REGEX
  | NER
  | LLM
deriving DecidableEq, Repr

/-- Kinds of exceptions raised inside the extraction core
(`exceptions/parsing_exceptions.py`, `exceptions/api_exceptions.py`, plus the
coordinator's own `ValueError`).  Message strings are elided: the claims are
about exception kinds. -/
inductive PyErr where
  | invalidStrategyConfig
  | noMatchFound
  | strategyExtraction
  | externalService
  | fieldExtraction
  | validation
deriving DecidableEq, Repr

/-- A field extractor as the coordinator sees it: called on the text, it either
returns a value or raises some exception (`resume_extractor.py:112-134` catches
every `Exception`). -/
def ExtractorFn : Type := String → Except PyErr PyVal

/-- The for-loop of `ResumeExtractor._extract_field` (`resume_extractor.py:112-146`)
over a given extractor list: try each extractor in order; a meaningful result is
returned at once; an exception or a non-meaningful result advances to the next
extractor; an exhausted list yields the field's default. -/
def extractChain (extractors : List ExtractorFn) (dft : PyVal) (text : String) : PyVal :=
  match extractors with
  | [] => dft
  | e :: rest =>
    match e text with
    | .ok r => if r.meaningful then r else extractChain rest dft text
    | .error _ => extractChain rest dft text

/-- The default returned when a chain is exhausted
(`resume_extractor.py:142-146`): `[]` for SKILLS, `None` otherwise. -/
def fieldDefault : FieldType → PyVal
  | .SKILLS => .list []
  | _ => .none

/-- The `Dict[FieldType, List[FieldExtractor]]` passed to `ResumeExtractor.__init__`:
a partial mapping from the three field types to extractor lists. -/
structure ExtractorDict where
  name? : Option (List ExtractorFn)
  email? : Option (List ExtractorFn)
  skills? : Option (List ExtractorFn)

/-- Python `extractors[field_type]` lookup. -/
def ExtractorDict.get : ExtractorDict → FieldType → Option (List ExtractorFn)
  | d, .NAME => d.name?
  | d, .EMAIL => d.email?
  | d, .SKILLS => d.skills?

/-- Python `not extractors` on the dict: true iff it has no keys. -/
def ExtractorDict.isEmpty (d : ExtractorDict) : Bool :=
  d.name?.isNone && d.email?.isNone && d.skills?.isNone

/-- `required_fields - provided_fields` in `ResumeExtractor.__init__`
(`resume_extractor.py:44-48`): the required field types absent from the dict. -/
def ExtractorDict.missingFields (d : ExtractorDict) : List FieldType :=
  [FieldType.NAME, FieldType.EMAIL, FieldType.SKILLS].filter
    (fun ft => (d.get ft).isNone)

/-- The information content of the `ValueError`s raised by
`ResumeExtractor.__init__`: the empty/None rejection and the
missing-field-types rejection, the latter naming the missing field types
(`resume_extractor.py:40-51`). -/
inductive InitError where
  | emptyOrNone
  | missingFieldTypes (missing : List FieldType)
deriving DecidableEq, Repr

/-- The coordinator: holds the extractor mapping (`resume_extractor.py:53`). -/
structure ResumeExtractor where
  extractors : ExtractorDict

/-- `ResumeExtractor.__init__` (`resume_extractor.py:27-58`): rejects a `None`
or empty dict, then rejects a dict not covering all three required field types,
reporting the missing ones. -/
def ResumeExtractor.init (extractors : Option ExtractorDict) : Except InitError ResumeExtractor :=
  match extractors with
  | Option.none => .error .emptyOrNone
  | some d =>
    if d.isEmpty then .error .emptyOrNone
    else if d.missingFields.isEmpty then .ok ⟨d⟩
    else .error (.missingFieldTypes d.missingFields)

/-- The output record (`models/resume_data.py`); the coordinator stores whatever
each field's chain produced. -/
structure ResumeData where
  name : PyVal
  email : PyVal
  skills : PyVal
deriving DecidableEq, Repr

/-- `ResumeExtractor._extract_field` (`resume_extractor.py:92-146`):
`self.extractors.get(field_type, [])`, then the fallback loop. -/
def ResumeExtractor.extractField (re : ResumeExtractor) (ft : FieldType) (text : String) : PyVal :=
  extractChain ((re.extractors.get ft).getD []) (fieldDefault ft) text

/-- `ResumeExtractor.extract` (`resume_extractor.py:60-90`):
`if not text or not text.strip(): raise ValueError`, then extract NAME, EMAIL,
SKILLS through their chains and assemble a `ResumeData`. -/
def ResumeExtractor.extract (re : ResumeExtractor) (text : String) : Except PyErr ResumeData :=
  if text = "" ∨ pyStrip text = "" then .error .validation
  else
    .ok { name := re.extractField .NAME text
          email := re.extractField .EMAIL text
          skills := re.extractField .SKILLS text }

/-- An extractor attempt that advances the chain: it raises, or returns a
non-meaningful value. -/
def attemptFails (e : ExtractorFn) (text : String) : Bool :=
  match e text with
  | .error _ => true
  | .ok r => ! r.meaningful

theorem extractChain_cons (e : ExtractorFn) (rest : List ExtractorFn)
    (dft : PyVal) (text : String) :
    extractChain (e :: rest) dft text =
      match e text with
      | .ok r => if r.meaningful then r else extractChain rest dft text
      | .error _ => extractChain rest dft text := rfl

theorem extractChain_step_fail {e : ExtractorFn} {text : String}
    (rest : List ExtractorFn) (dft : PyVal) (h : attemptFails e text = true) :
    extractChain (e :: rest) dft text = extractChain rest dft text := by
  rw [extractChain_cons]
  unfold attemptFails at h
  cases hx : e text with
  | error msg => rfl
  | ok r =>
    rw [hx] at h
    simp only [Bool.not_eq_true'] at h
    simp [h]

theorem extractChain_all_fail {extractors : List ExtractorFn} {text : String}
    (dft : PyVal) (h : ∀ e ∈ extractors, attemptFails e text = true) :
    extractChain extractors dft text = dft := by
  induction extractors with
  | nil => rfl
  | cons e rest ih =>
    rw [extractChain_step_fail rest dft (h e (List.mem_cons_self e rest))]
    exact ih fun e' he' => h e' (List.mem_cons_of_mem e he')

theorem extractChain_first_meaningful {pre : List ExtractorFn} {text : String}
    (e : ExtractorFn) (post : List ExtractorFn) (dft : PyVal) (r : PyVal)
    (hpre : ∀ e' ∈ pre, attemptFails e' text = true)
    (he : e text = .ok r) (hr : r.meaningful = true) :
    extractChain (pre ++ e :: post) dft text = r := by
  induction pre with
  | nil => simp [extractChain_cons, he, hr]
  | cons p rest ih =>
    rw [List.cons_append,
      extractChain_step_fail _ dft (hpre p (List.mem_cons_self p rest))]
    exact ih fun e' he' => hpre e' (List.mem_cons_of_mem p he')

/-- `FieldSpec` from `interfaces/extracting_strategy.py`: immutable parameters
telling a strategy what and how much to extract.  `top_k`: `none` = single
valued, `some 0` = unlimited multi-valued, `some n` (n>0) = capped. -/
structure FieldSpec where
  field_type : FieldType
  regex_patterns : Option (List String) := Option.none
  entity_label : Option String := Option.none
  top_k : Option Int := Option.none
deriving DecidableEq, Repr

/-- The shape of Python `re.Pattern.findall`: a list of plain strings (pattern
with at most one capture group) or a list of group tuples (two or more
groups); `re` never mixes the two shapes in one result. -/
inductive FindallResult where
  | strs (ms : List String)
  | tups (ms : List (List String))

/-- Python `if matches:` on a findall result. -/
def FindallResult.isEmpty : FindallResult → Bool
  | .strs ms => ms.isEmpty
  | .tups ms => ms.isEmpty

/-- The comprehension `[m for match in matches for m in match if m]`
(`regex.py:58`): concatenate the group tuples, dropping falsy (empty-string)
groups. -/
def flattenGroups : List (List String) → List String
  | [] => []
  | gs :: rest => gs.filter (fun g => g ≠ "") ++ flattenGroups rest

/-- `regex.py:56-58`: when matches are group tuples, flatten them and drop the
falsy groups; plain string matches are left as they are. -/
def FindallResult.flatten : FindallResult → List String
  | .strs ms => ms
  | .tups ms => flattenGroups ms

/-- A compiled pattern of the external regex engine, exposed through its
`findall` behaviour only (the engine is out of scope by design). -/
structure CompiledPattern where
  findall : String → FindallResult

/-- The abstract regex engine: `re.compile` may fail with `re.error`. -/
structure RegexEngine where
  compile : String → Except Unit CompiledPattern

/-- `regex.py:60-67`: apply `spec.top_k` to the match list.
`some k`, `k > 0` → first `k` matches; `some k`, `k ≤ 0` → all matches;
`none` → `[matches[0]] if matches else []`, i.e. the first match only. -/
def regexSelect (top_k : Option Int) (ms : List String) : List String :=
  match top_k with
  | some k => if k > 0 then ms.take k.toNat else ms
  | Option.none => ms.take 1

/-- A constructed `RegexExtractionStrategy` (`regex.py:13-34`): the spec and
the compiled patterns. -/
structure RegexExtractionStrategy where
  spec : FieldSpec
  patterns : List CompiledPattern

/-- Compile every pattern string; the first `re.error` aborts construction
with `InvalidStrategyConfigError` (`regex.py:27-34`). -/
def compilePatterns (engine : RegexEngine) : List String → Except PyErr (List CompiledPattern)
  | [] => .ok []
  | p :: ps =>
    match engine.compile p with
    | .error _ => .error .invalidStrategyConfig
    | .ok cp => (compilePatterns engine ps).map (fun rest => cp :: rest)

/-- `RegexExtractionStrategy.__init__` (`regex.py:13-34`): reject a missing or
empty pattern list, then compile each pattern. -/
def RegexExtractionStrategy.init (engine : RegexEngine) (spec : FieldSpec) :
    Except PyErr RegexExtractionStrategy :=
  match spec.regex_patterns with
  | Option.none => .error .invalidStrategyConfig
  | some pats =>
    if pats.isEmpty then .error .invalidStrategyConfig
    else (compilePatterns engine pats).map (fun cps => ⟨spec, cps⟩)

/-- The pattern loop of `RegexExtractionStrategy.extract` (`regex.py:53-71`):
the first pattern whose `findall` is non-empty determines the result via
flattening and `top_k` selection; if no pattern matches, `NoMatchFoundError`. -/
def regexTryPatterns (spec : FieldSpec) (text : String) :
    List CompiledPattern → Except PyErr (List String)
  | [] => .error .noMatchFound
  | p :: rest =>
    let ms := p.findall text
    if ms.isEmpty then regexTryPatterns spec text rest
    else .ok (regexSelect spec.top_k ms.flatten)

/-- `RegexExtractionStrategy.extract` (`regex.py:36-71`): empty (after strip)
text raises `NoMatchFoundError`; otherwise try the patterns in order. -/
def RegexExtractionStrategy.extract (s : RegexExtractionStrategy) (text : String) :
    Except PyErr (List String) :=
  if text = "" ∨ pyStrip text = "" then .error .noMatchFound
  else regexTryPatterns s.spec text s.patterns

/-- An entity returned by `GLiNER.predict_entities`; only the `text` span is
consumed by the strategy (`ner.py:76`).  The numeric score is irrelevant to the
core and omitted. -/
structure NerEntity where
  text : String
  label : String

/-- The external entity-recognition model (`ner.py:66-73`): one invocation that
may itself raise. -/
structure NerModel where
  predict_entities : String → List String → Except Unit (List NerEntity)

/-- Label resolution at `ner.py:54-59`: a truthy `spec.entity_label` wins,
else the truthy strategy-level defaults, else no label (empty list, which the
caller rejects). -/
def resolveLabels (label? : Option String) (defaults? : Option (List String)) : List String :=
  match label? with
  | some l => if l ≠ "" then [l] else defaults?.getD []
  | Option.none => defaults?.getD []

/-- `ner.py:84-89`: apply `spec.top_k` to the recognised entity texts; the
source indexes `entity_texts[0]` under a non-emptiness guard, rendered totally
as `take 1`. -/
def nerSelect (top_k : Option Int) (entity_texts : List String) : List String :=
  match top_k with
  | some k => if k > 0 then entity_texts.take k.toNat else entity_texts
  | Option.none => entity_texts.take 1

/-- The body of `NERExtractionStrategy.extract` (`ner.py:37-89`): empty text →
`NoMatchFoundError`; unresolvable labels → `InvalidStrategyConfigError`; model
invocation error → `StrategyExtractionError`; zero entities →
`NoMatchFoundError`; otherwise the `top_k` selection of the entity texts. -/
def nerExtract (model : NerModel) (defaults? : Option (List String))
    (spec : FieldSpec) (text : String) : Except PyErr (List String) :=
  if text = "" ∨ pyStrip text = "" then .error .noMatchFound
  else
    let labels := resolveLabels spec.entity_label defaults?
    if labels.isEmpty then .error .invalidStrategyConfig
    else
      match model.predict_entities text labels with
      | .error _ => .error .strategyExtraction
      | .ok entities =>
        let entity_texts := entities.map (fun ent => ent.text)
        if entity_texts.isEmpty then .error .noMatchFound
        else .ok (nerSelect spec.top_k entity_texts)

/-- JSON values as produced by `json.loads` on the Gemini response (objects do
not occur in the flows the claims concern and are subsumed under non-array
values by `arr`-pattern matching). -/
inductive Json where
  | null
  | bool (b : Bool)
  | num (n : Int)
  | str (s : String)
  | arr (items : List Json)

/-- Python truthiness of a parsed JSON item (`if item` at `llm.py:127`). -/
def Json.truthy : Json → Bool
  | .null => false
  | .bool b => b
  | .num n => n ≠ 0
  | .str s => s ≠ ""
  | .arr items => ! items.isEmpty

/-- A single quote character, used by Python `repr` of strings. -/
def squote : String := String.mk [Char.ofNat 39]

mutual

/-- Python `str(item)` on a parsed JSON value (`llm.py:127`): a string is
itself; every other value renders as its `repr`. -/
def Json.pyStr : Json → String
  | .str s => s
  | j => Json.pyRepr j

/-- Python `repr` of a parsed JSON value. -/
def Json.pyRepr : Json → String
  | .null => "None"
  | .bool b => cond b "True" "False"
  | .num n => toString n
  | .str s => squote ++ s ++ squote
  | .arr items => "[" ++ String.intercalate ", " (Json.pyReprList items) ++ "]"

def Json.pyReprList : List Json → List String
  | [] => []
  | j :: js => Json.pyRepr j :: Json.pyReprList js

end

/-- Index of the first occurrence of a character (Python `str.index`). -/
def firstIndexOf (cs : List Char) (c : Char) : Option Nat :=
  match cs with
  | [] => Option.none
  | x :: xs => if x = c then some 0 else (firstIndexOf xs c).map (fun i => i + 1)

/-- Index of the last occurrence of a character (Python `str.rindex`). -/
def lastIndexOf (cs : List Char) (c : Char) : Option Nat :=
  match firstIndexOf cs.reverse c with
  | some i => some (cs.length - 1 - i)
  | Option.none => Option.none

/-- Python slice `s[a:b]` for `0 ≤ a ≤ b` as used at `llm.py:120`. -/
def pySlice (s : String) (a b : Nat) : String :=
  String.mk ((s.toList.drop a).take (b - a))

/-- Python `str.upper()` restricted to the ASCII range exercised here. -/
def pyUpper (s : String) : String := String.mk (s.toList.map Char.toUpper)

/-- The Gemini client (`llm.py:75`): one `generate_content` call that either
raises or yields a response text (`""` standing for a falsy — missing or
empty — response, `llm.py:76`). -/
structure LlmModel where
  generate_content : String → Except Unit String

/-- The `instruction` table of `LLMExtractionStrategy._build_prompt`
(`llm.py:91-95`). -/
def llmFieldInstruction : FieldType → String
  | .NAME => "Extract the person" ++ squote ++ "s full name from the resume text."
  | .EMAIL => "Extract the person" ++ squote ++ "s email address from the resume text."
  | .SKILLS => "Extract all technical skills mentioned in the resume text as a JSON array."

/-- `LLMExtractionStrategy._build_prompt` (`llm.py:89-107`): instruction,
format directions, and the input text. -/
def llmBuildPrompt (spec : FieldSpec) (text : String) : String :=
  llmFieldInstruction spec.field_type
    ++ "\n Return the result as a valid JSON array of strings."
    ++ "\n If nothing is found, return an empty array: []"
    ++ "\n Text:\n " ++ text ++ "\n Response (JSON array only):"

/-- The list branch of `LLMExtractionStrategy._parse_response` (`llm.py:113-143`),
entered when `top_k` is set.  `json.loads` is the abstract `loads` argument
(`Option.none` = `JSONDecodeError`).  No bracket delimiters and a non-array
JSON value are `ValueError`s caught at `llm.py:140` and rewrapped as
`ExternalServiceError`; the empty-after-filtering check at `llm.py:131` raises
`NoMatchFoundError`, which that handler does not catch. -/
def llmParseListResponse (loads : String → Option Json) (k : Int) (rt : String) :
    Except PyErr (List String) :=
  match firstIndexOf rt.toList '[', lastIndexOf rt.toList ']' with
  | some start, some last =>
    let json_str := pySlice rt start (last + 1)
    match loads json_str with
    | Option.none => .error .externalService
    | some (Json.arr items) =>
      let result := (items.filter Json.truthy).map (fun it => pyStrip it.pyStr)
      let result := if k > 0 then result.take k.toNat else result
      if result.isEmpty then .error .noMatchFound
      else .ok result
    | some _ => .error .externalService
  | _, _ => .error .externalService

/-- `LLMExtractionStrategy._parse_response` (`llm.py:109-151`): strip the
response, then dispatch on `spec.top_k`; in single-value mode the sentinel
check `response_text.upper() == "NOT_FOUND" or not response_text` raises
`NoMatchFoundError`, otherwise the stripped response is the one candidate. -/
def llmParseResponse (loads : String → Option Json) (spec : FieldSpec)
    (response_text : String) : Except PyErr (List String) :=
  let rt := pyStrip response_text
  match spec.top_k with
  | some k => llmParseListResponse loads k rt
  | Option.none =>
    if pyUpper rt = "NOT_FOUND" ∨ rt = "" then .error .noMatchFound
    else .ok [rt]

/-- `LLMExtractionStrategy.extract` (`llm.py:48-87`): empty text →
`NoMatchFoundError`; an API exception → `ExternalServiceError`; a falsy
response → `NoMatchFoundError`; then `_parse_response`, whose
`NoMatchFoundError` is re-raised as-is and whose every other failure is
rewrapped as `ExternalServiceError` by the `except Exception` handler. -/
def llmExtract (model : LlmModel) (loads : String → Option Json)
    (spec : FieldSpec) (text : String) : Except PyErr (List String) :=
  if text = "" ∨ pyStrip text = "" then .error .noMatchFound
  else
    match model.generate_content (llmBuildPrompt spec text) with
    | .error _ => .error .externalService
    | .ok resp =>
      if resp = "" then .error .noMatchFound
      else
        match llmParseResponse loads spec resp with
        | .ok r => .ok r
        | .error .noMatchFound => .error .noMatchFound
        | .error _ => .error .externalService

/-- Characters admitted in the local part of the strict email pattern
`[a-zA-Z0-9._%+-]+`. -/
def isLocalChar (c : Char) : Bool :=
  c.isAlpha || c.isDigit || c = '.' || c = '_' || c = '%' || c = '+' || c = '-'

/-- Characters admitted in the domain part of the strict email pattern
`[a-zA-Z0-9.-]+`. -/
def isDomainChar (c : Char) : Bool :=
  c.isAlpha || c.isDigit || c = '.' || c = '-'

/-- Modelled from the spec: the EmailExtractor's strict email-format check
(`local@domain.tld`, TLD at least 2 characters — design §4.3 and E2E scenario C;
the `_is_valid_email` method referenced by `email_extractor.py:47` is absent
from the source snapshot).  Matches the anchored pattern
`[a-zA-Z0-9._%+-]+@[a-zA-Z0-9.-]+\.[a-zA-Z]\x7b2,\x7d`: a leading `@`-free
local part, an `@`, a domain, a final dot, and an alphabetic TLD of length at
least two. -/
def isValidEmail (s : String) : Bool :=
  let cs := s.toList
  match firstIndexOf cs '@' with
  | Option.none => false
  | some i =>
    let localPart := cs.take i
    let rest := cs.drop (i + 1)
    ! localPart.isEmpty && localPart.all isLocalChar &&
      (match lastIndexOf rest '.' with
       | Option.none => false
       | some j =>
         let dom := rest.take j
         let tld := rest.drop (j + 1)
         ! dom.isEmpty && dom.all isDomainChar &&
           decide (2 ≤ tld.length) && tld.all Char.isAlpha)

/-- Modelled from the spec: `EmailExtractor.extract`.  The file
`src/extractors/email_extractor.py` in the snapshot is a stale revision that is
syntactically invalid (an unindented body after
`if strategy == StrategyType.REGEX:` at line 33, an undefined
`preferred_strategies`, no `_is_valid_email`); the intended behaviour is fixed
by design §4.3 and the unit tests `tests/test_email_extractor.py`: validate
input length (≥ 5 after strip, from `validate_input`), delegate to the single
wrapped strategy, take `candidates[0]`, validate it against the strict format,
and surface every failure — strategy exception, empty candidates, bad format —
as `FieldExtractionError`. -/
def emailExtract (strategy : String → Except PyErr (List String)) (text : String) :
    Except PyErr String :=
  let t := pyStrip text
  if t.length < 5 then .error .fieldExtraction
  else
    match strategy t with
    | .error _ => .error .fieldExtraction
    | .ok candidates =>
      match candidates with
      | [] => .error .fieldExtraction
      | c :: _ => if isValidEmail c then .ok c else .error .fieldExtraction

/-- `SUPPORTED_STRATEGIES` from `extractors/factory.py:22-26`. -/
def SUPPORTED_STRATEGIES : FieldType → List StrategyType
  | .NAME => [.NER, .LLM]
  | .EMAIL => [.REGEX, .NER, .LLM]
  | .SKILLS => [.NER, .LLM]

/-- The email pattern literal of `_create_field_spec` (`factory.py:77`). -/
def emailRegexPattern : String :=
  "[a-zA-Z0-9._%+-]+@[a-zA-Z0-9.-]+\\.[a-zA-Z]\x7b2,\x7d"

/-- `_create_field_spec` (`factory.py:59-88`): the field-appropriate spec for
each of the three field types. -/
def createFieldSpec : FieldType → FieldSpec
  | .NAME => { field_type := .NAME, entity_label := some "person", top_k := Option.none }
  | .EMAIL =>
    { field_type := .EMAIL, regex_patterns := some [emailRegexPattern],
      entity_label := some "email", top_k := Option.none }
  | .SKILLS => { field_type := .SKILLS, entity_label := some "skill", top_k := some 0 }

/-- The external collaborators a factory-built strategy closes over: the regex
engine, the loaded GLiNER model, the Gemini client, and `json.loads`. -/
structure ExternalDeps where
  engine : RegexEngine
  nerModel : NerModel
  llmModel : LlmModel
  loads : String → Option Json

/-- A constructed strategy: the closed sum of the three variants, each bound to
its spec at construction time.  The NER variant is modelled from the spec:
`ner.py` in the snapshot is a stale revision whose constructor takes a
`model_name` and whose `extract` takes the spec at call time, while the factory
(`factory.py:112`), the abstract interface
(`interfaces/extracting_strategy.py:47-57`) and the NER unit tests all bind the
spec at construction and call `extract(text)`; the design (§9, open question)
adopts that spec-bound form.  The NER extraction body itself follows
`ner.py:37-89`. -/
inductive Strategy where
  | regex (strat : RegexExtractionStrategy)
  | ner (model : NerModel) (defaults : Option (List String)) (spec : FieldSpec)
  | llm (model : LlmModel) (loads : String → Option Json) (spec : FieldSpec)

/-- The spec a constructed strategy is bound to. -/
def Strategy.boundSpec : Strategy → FieldSpec
  | .regex strat => strat.spec
  | .ner _ _ spec => spec
  | .llm _ _ spec => spec

/-- The uniform capability of design §4.2: every variant is invoked with bare
text only and yields a sequence of candidate strings or a typed failure. -/
def Strategy.extract : Strategy → String → Except PyErr (List String)
  | .regex strat, text => strat.extract text
  | .ner model defaults spec, text => nerExtract model defaults spec text
  | .llm model loads spec, text => llmExtract model loads spec text

/-- `_create_strategy` (`factory.py:91-118`): dispatch on the strategy type;
the REGEX branch additionally rejects a spec with no patterns. -/
def createStrategy (deps : ExternalDeps) (strategy_type : StrategyType)
    (field_spec : FieldSpec) : Except PyErr Strategy :=
  match strategy_type with
  | .REGEX =>
    match field_spec.regex_patterns with
    | Option.none => .error .invalidStrategyConfig
    | some pats =>
      if pats.isEmpty then .error .invalidStrategyConfig
      else (RegexExtractionStrategy.init deps.engine field_spec).map Strategy.regex
  | .NER => .ok (.ner deps.nerModel Option.none field_spec)
  | .LLM => .ok (.llm deps.llmModel deps.loads field_spec)

/-- `create_extractor` (`factory.py:29-56`) up to the strategy level: reject an
unsupported (field type, strategy type) pair, then build the field-appropriate
spec and the strategy bound to it. -/
def createExtractorStrategy (deps : ExternalDeps) (field_type : FieldType)
    (strategy_type : StrategyType) : Except PyErr Strategy :=
  if (SUPPORTED_STRATEGIES field_type).contains strategy_type then
    createStrategy deps strategy_type (createFieldSpec field_type)
  else .error .invalidStrategyConfig

/-- C1: the coordinator's `_extract_field` tries a field's extractors in their
configured order and returns the first meaningful value (not `None`, not `""`,
not `[]`): when every extractor before `e` raised or returned a non-meaningful
value and `e` yields a meaningful `r`, the chain's result is `r` regardless of
the extractors after `e` — they are never consulted; an extractor that raises
and an extractor that returns a non-meaningful value both advance the chain to
the next extractor, and the loop itself is total: no extractor failure aborts
the overall extract call. -/
theorem C1_extract_field_chain (ft : FieldType) (text : String)
    (e : ExtractorFn) (pre post : List ExtractorFn) (r : PyVal) :
    ((∀ e' ∈ pre, attemptFails e' text = true) → e text = .ok r →
        r.meaningful = true →
        extractChain (pre ++ e :: post) (fieldDefault ft) text = r) ∧
    (∀ msg, e text = .error msg →
        extractChain (e :: post) (fieldDefault ft) text =
          extractChain post (fieldDefault ft) text) ∧
    (e text = .ok r → r.meaningful = false →
        extractChain (e :: post) (fieldDefault ft) text =
          extractChain post (fieldDefault ft) text) := by
  refine ⟨fun hpre he hr => extractChain_first_meaningful e post _ r hpre he hr,
    fun msg hmsg => extractChain_step_fail post _ ?_,
    fun he hr => extractChain_step_fail post _ ?_⟩
  · unfold attemptFails
    rw [hmsg]
  · unfold attemptFails
    rw [he]
    simp [hr]

/-- Witness for C1: extractor A raises, B yields a meaningful value, C would
yield another; the chain returns B's value and C does not affect it. -/
theorem C1_extract_field_chain_witness :
    extractChain
      [fun _ => Except.error PyErr.strategyExtraction,
       fun _ => Except.ok (PyVal.str "Jane Smith"),
       fun _ => Except.ok (PyVal.str "other")]
      (fieldDefault FieldType.NAME) "resume" = PyVal.str "Jane Smith" := by
  have h := (C1_extract_field_chain FieldType.NAME "resume"
      (fun _ => Except.ok (PyVal.str "Jane Smith"))
      [fun _ => Except.error PyErr.strategyExtraction]
      [fun _ => Except.ok (PyVal.str "other")] (PyVal.str "Jane Smith")).1
  exact h (by intro e' he'; rw [List.mem_singleton] at he'; subst he'; rfl) rfl rfl

/-- C2: for a valid (non-blank) text the coordinator's `extract` never raises,
and when every extractor of every chain raises or returns a non-meaningful
value it returns the fully-degraded record: NAME and EMAIL resolve to `None`
and SKILLS to the empty list. -/
theorem C2_exhausted_chains_default (re : ResumeExtractor) (text : String)
    (hval : pyStrip text ≠ "") :
    (∃ rd, re.extract text = .ok rd) ∧
    ((∀ e ∈ (re.extractors.get .NAME).getD [], attemptFails e text = true) →
     (∀ e ∈ (re.extractors.get .EMAIL).getD [], attemptFails e text = true) →
     (∀ e ∈ (re.extractors.get .SKILLS).getD [], attemptFails e text = true) →
      re.extract text =
        .ok { name := PyVal.none, email := PyVal.none, skills := PyVal.list [] }) := by
  have htext : ¬(text = "" ∨ pyStrip text = "") := by
    rintro (rfl | h)
    · exact hval rfl
    · exact hval h
  constructor
  · exact ⟨_, by rw [ResumeExtractor.extract, if_neg htext]⟩
  · intro hn he hs
    rw [ResumeExtractor.extract, if_neg htext]
    unfold ResumeExtractor.extractField
    rw [extractChain_all_fail _ hn, extractChain_all_fail _ he,
      extractChain_all_fail _ hs]
    rfl

/-- Witness for C2: a coordinator whose NAME chain raises, whose EMAIL chain
returns an empty string, and whose SKILLS chain returns an empty list yields
the fully-degraded record on a valid text. -/
theorem C2_exhausted_chains_default_witness :
    ResumeExtractor.extract
      ⟨⟨some [fun _ => Except.error PyErr.fieldExtraction],
        some [fun _ => Except.ok (PyVal.str "")],
        some [fun _ => Except.ok (PyVal.list [])]⟩⟩ "John Doe resume" =
      .ok { name := PyVal.none, email := PyVal.none, skills := PyVal.list [] } := by
  refine (C2_exhausted_chains_default _ "John Doe resume" (by decide)).2 ?_ ?_ ?_ <;>
    · intro e he
      simp only [ExtractorDict.get, Option.getD_some, List.mem_singleton] at he
      subst he
      rfl

/-- C3: calling the coordinator's `extract` on an empty or whitespace-only
text fails with the validation `ValueError` before any field extractor can
matter — the outcome is the same for every configured extractor mapping, and
no partial `ResumeData` is produced; conversely, for any text that is
non-blank after stripping, `extract` returns a record and never raises: the
precondition check is the only way `extract` itself raises. -/
theorem C3_blank_text_rejected (re re' : ResumeExtractor) (text : String) :
    (pyStrip text = "" → re.extract text = .error .validation) ∧
    (pyStrip text = "" → re.extract text = re'.extract text) ∧
    (pyStrip text ≠ "" → ∃ rd, re.extract text = .ok rd) := by
  refine ⟨fun h => ?_, fun h => ?_, fun h => ?_⟩
  · rw [ResumeExtractor.extract, if_pos (Or.inr h)]
  · rw [ResumeExtractor.extract, if_pos (Or.inr h),
      ResumeExtractor.extract, if_pos (Or.inr h)]
  · have htext : ¬(text = "" ∨ pyStrip text = "") := by
      rintro (rfl | hh)
      · exact h rfl
      · exact h hh
    exact ⟨_, by rw [ResumeExtractor.extract, if_neg htext]⟩

/-- Witness for C3: with a coordinator whose NAME chain would succeed, the
whitespace-only text `"   "` is rejected with the validation error and the
text `"John"` is accepted. -/
theorem C3_blank_text_rejected_witness :
    ResumeExtractor.extract
        ⟨⟨some [fun _ => Except.ok (PyVal.str "John")], some [], some []⟩⟩ "   " =
      .error .validation ∧
    ∃ rd, ResumeExtractor.extract
        ⟨⟨some [fun _ => Except.ok (PyVal.str "John")], some [], some []⟩⟩ "John" =
      .ok rd :=
  ⟨(C3_blank_text_rejected ⟨⟨some [fun _ => Except.ok (PyVal.str "John")], some [], some []⟩⟩
      ⟨⟨some [fun _ => Except.ok (PyVal.str "John")], some [], some []⟩⟩ "   ").1 (by decide),
   (C3_blank_text_rejected ⟨⟨some [fun _ => Except.ok (PyVal.str "John")], some [], some []⟩⟩
      ⟨⟨some [fun _ => Except.ok (PyVal.str "John")], some [], some []⟩⟩ "John").2.2 (by decide)⟩

/-- C4: constructing the coordinator with a `None` or empty extractor mapping
fails with the configuration `ValueError`; a mapping that misses some of the
three required field types fails with the error naming exactly the absent
field types; a mapping covering all three constructs successfully. -/
theorem C4_init_validation (d : ExtractorDict) :
    (ResumeExtractor.init Option.none = .error .emptyOrNone) ∧
    (d.isEmpty = true → ResumeExtractor.init (some d) = .error .emptyOrNone) ∧
    (d.isEmpty = false → d.missingFields ≠ [] →
      ResumeExtractor.init (some d) = .error (.missingFieldTypes d.missingFields)) ∧
    (∀ ft, ft ∈ d.missingFields ↔ (d.get ft).isNone = true) ∧
    (d.missingFields = [] → ResumeExtractor.init (some d) = .ok ⟨d⟩) := by
  refine ⟨rfl, fun h => ?_, fun h1 h2 => ?_, fun ft => ?_, fun h => ?_⟩
  · rw [ResumeExtractor.init, if_pos h]
  · rw [ResumeExtractor.init, if_neg (by simp [h1]),
      if_neg (by simpa using h2)]
  · unfold ExtractorDict.missingFields
    rw [List.mem_filter]
    cases ft <;> simp
  · have hne : d.isEmpty = false := by
      have hname : (d.get .NAME).isNone = false := by
        by_contra hc
        have : FieldType.NAME ∈ d.missingFields := by
          unfold ExtractorDict.missingFields
          rw [List.mem_filter]
          simp only [Bool.not_eq_false] at hc
          exact ⟨by simp, hc⟩
        rw [h] at this
        exact absurd this (List.not_mem_nil _)
      unfold ExtractorDict.isEmpty
      unfold ExtractorDict.get at hname
      simp [hname]
    rw [ResumeExtractor.init, if_neg (by simp [hne]), if_pos (by simp [h])]

/-- Witness for C4: the complete mapping constructs; the mapping providing only
NAME is rejected naming EMAIL and SKILLS as missing. -/
theorem C4_init_validation_witness :
    ResumeExtractor.init (some ⟨some [], some [], some []⟩) =
      .ok ⟨⟨some [], some [], some []⟩⟩ ∧
    ResumeExtractor.init (some ⟨some [], Option.none, Option.none⟩) =
      .error (.missingFieldTypes [FieldType.EMAIL, FieldType.SKILLS]) :=
  ⟨(C4_init_validation ⟨some [], some [], some []⟩).2.2.2.2 rfl,
   (C4_init_validation ⟨some [], Option.none, Option.none⟩).2.2.1 rfl (by decide)⟩

theorem flatten_tups (gss : List (List String)) :
    (FindallResult.tups gss).flatten =
      (gss.map (fun gs => gs.filter (fun g => g ≠ ""))).flatten := by
  induction gss with
  | nil => rfl
  | cons gs rest ih =>
    simpa [FindallResult.flatten, flattenGroups] using ih

theorem regexTryPatterns_first (spec : FieldSpec) (text : String)
    {pre : List CompiledPattern} (p : CompiledPattern) (post : List CompiledPattern)
    (hpre : ∀ q ∈ pre, (q.findall text).isEmpty = true)
    (hp : (p.findall text).isEmpty = false) :
    regexTryPatterns spec text (pre ++ p :: post) =
      .ok (regexSelect spec.top_k (p.findall text).flatten) := by
  induction pre with
  | nil => simp [regexTryPatterns, hp]
  | cons q rest ih =>
    have hq := hpre q (List.mem_cons_self q rest)
    rw [List.cons_append]
    simp only [regexTryPatterns, hq, if_true]
    exact ih fun q' h' => hpre q' (List.mem_cons_of_mem q h')

theorem regexTryPatterns_error_iff (spec : FieldSpec) (text : String)
    (ps : List CompiledPattern) :
    regexTryPatterns spec text ps = .error .noMatchFound ↔
      ∀ q ∈ ps, (q.findall text).isEmpty = true := by
  induction ps with
  | nil => simp [regexTryPatterns]
  | cons p rest ih =>
    by_cases h : (p.findall text).isEmpty
    · simp only [regexTryPatterns, h, if_true]
      rw [ih]
      constructor
      · intro hall q hq
        rcases List.mem_cons.mp hq with rfl | hq'
        · exact h
        · exact hall q hq'
      · intro hall q hq
        exact hall q (List.mem_cons_of_mem p hq)
    · simp only [regexTryPatterns, h, if_false]
      constructor
      · intro hc
        exact absurd hc (by simp)
      · intro hall
        exact absurd (hall p (List.mem_cons_self p rest)) (by simp [h])

/-- C5: for a non-blank input the pattern strategy's `extract` tries its
compiled patterns in declared order: the first pattern whose `findall` yields
any match determines the result — the patterns after it never influence it;
group-tuple matches are flattened with falsy (empty) groups dropped; and
`extract` fails, necessarily with `NoMatchFoundError`, exactly when no pattern
yields a match. -/
theorem C5_regex_first_match (s : RegexExtractionStrategy) (p : CompiledPattern)
    (pre post : List CompiledPattern) (text : String) (htext : pyStrip text ≠ "") :
    (s.patterns = pre ++ p :: post →
       (∀ q ∈ pre, (q.findall text).isEmpty = true) →
       (p.findall text).isEmpty = false →
       s.extract text = .ok (regexSelect s.spec.top_k (p.findall text).flatten)) ∧
    (∀ gss, (FindallResult.tups gss).flatten =
       (gss.map (fun gs => gs.filter (fun g => g ≠ ""))).flatten) ∧
    (s.extract text = .error .noMatchFound ↔
       ∀ q ∈ s.patterns, (q.findall text).isEmpty = true) := by
  have hguard : ¬(text = "" ∨ pyStrip text = "") := by
    rintro (rfl | h)
    · exact htext rfl
    · exact htext h
  refine ⟨fun hps hpre hp => ?_, flatten_tups, ?_⟩
  · rw [RegexExtractionStrategy.extract, if_neg hguard, hps]
    exact regexTryPatterns_first s.spec text p post hpre hp
  · rw [RegexExtractionStrategy.extract, if_neg hguard]
    exact regexTryPatterns_error_iff s.spec text s.patterns

/-- Witness for C5, the design's P5 example: with patterns `[P1, P2]` where P1
matches nothing and P2 matches `["x@y.com"]`, the strategy returns
`["x@y.com"]`. -/
theorem C5_regex_first_match_witness :
    RegexExtractionStrategy.extract
      ⟨{ field_type := .EMAIL, top_k := Option.none },
       [⟨fun _ => FindallResult.strs []⟩,
        ⟨fun _ => FindallResult.strs ["x@y.com"]⟩]⟩
      "Contact: x@y.com" = .ok ["x@y.com"] := by
  have h := (C5_regex_first_match
      ⟨{ field_type := .EMAIL, top_k := Option.none },
       [⟨fun _ => FindallResult.strs []⟩,
        ⟨fun _ => FindallResult.strs ["x@y.com"]⟩]⟩
      ⟨fun _ => FindallResult.strs ["x@y.com"]⟩
      [⟨fun _ => FindallResult.strs []⟩] [] "Contact: x@y.com" (by decide)).1
  refine (h rfl ?_ rfl).trans ?_
  · intro q hq
    rw [List.mem_singleton] at hq
    subst hq
    rfl
  · rfl

/-- C6: the three-way `top_k` (result_limit) semantic of both the regex
selection (`regex.py:60-67`) and the NER selection (`ner.py:84-89`):
`None` surfaces exactly the first candidate, `0` surfaces all candidates
unmodified, and `N > 0` surfaces the first `N` candidates in their original
order. -/
theorem C6_result_limit_semantics (m : String) (ms rest : List String) (n : Int) :
    (regexSelect Option.none (m :: rest) = [m]) ∧
    (regexSelect (some 0) ms = ms) ∧
    (0 < n → regexSelect (some n) ms = ms.take n.toNat) ∧
    (nerSelect Option.none (m :: rest) = [m]) ∧
    (nerSelect (some 0) ms = ms) ∧
    (0 < n → nerSelect (some n) ms = ms.take n.toNat) := by
  refine ⟨by simp [regexSelect], by simp [regexSelect], fun h => ?_,
    by simp [nerSelect], by simp [nerSelect], fun h => ?_⟩
  · simp [regexSelect, h]
  · simp [nerSelect, h]

/-- Witness for C6: a cap of 2 keeps the first two candidates in order. -/
theorem C6_result_limit_semantics_witness :
    regexSelect (some 2) ["Python", "Java", "SQL"] = ["Python", "Java"] ∧
    nerSelect (some 2) ["Python", "Java", "SQL"] = ["Python", "Java"] :=
  ⟨(C6_result_limit_semantics "Python" ["Python", "Java", "SQL"] [] 2).2.2.1 (by decide),
   (C6_result_limit_semantics "Python" ["Python", "Java", "SQL"] [] 2).2.2.2.2.2 (by decide)⟩

/-- C7 counterexample: with the skills spec (`top_k = 0`) and a model response
of `"[]"` — which `json.loads` parses to the empty array — the generative
strategy fails with `NoMatchFoundError`, not with `ExternalServiceError` as the
claim states: the `raise NoMatchFoundError` at `llm.py:131-134` is not a
`ValueError`, so the `except (json.JSONDecodeError, ValueError)` handler at
`llm.py:140` does not convert it, and `extract` re-raises it unchanged at
`llm.py:82-83` (the unit test `test_extract_empty_json_array` pins this
behaviour). -/
theorem C7_empty_array_counterexample :
    llmExtract ⟨fun _ => Except.ok "[]"⟩
        (fun s => if s = "[]" then some (Json.arr []) else Option.none)
        { field_type := .SKILLS, entity_label := some "skill", top_k := some 0 }
        "Skills: Python" =
      .error .noMatchFound ∧
    llmExtract ⟨fun _ => Except.ok "[]"⟩
        (fun s => if s = "[]" then some (Json.arr []) else Option.none)
        { field_type := .SKILLS, entity_label := some "skill", top_k := some 0 }
        "Skills: Python" ≠
      .error .externalService := by
  have h1 : llmExtract ⟨fun _ => Except.ok "[]"⟩
      (fun s => if s = "[]" then some (Json.arr []) else Option.none)
      { field_type := .SKILLS, entity_label := some "skill", top_k := some 0 }
      "Skills: Python" = .error .noMatchFound := rfl
  refine ⟨h1, fun hc => ?_⟩
  rw [h1] at hc
  simp at hc

/-- C7 (amended): in list mode (`top_k` set, including 0), absence of bracket
delimiters and a non-array JSON value each fail with `ExternalServiceError`;
any transport/API failure becomes `ExternalServiceError`; an empty model
response fails with `NoMatchFoundError`; and — amended — an empty resulting
array after filtering fails with `NoMatchFoundError`, not
`ExternalServiceError`. -/
theorem C7_llm_list_mode_errors (model : LlmModel) (loads : String → Option Json)
    (spec : FieldSpec) (k : Int) (text : String)
    (hk : spec.top_k = some k) (htext : pyStrip text ≠ "") :
    (model.generate_content (llmBuildPrompt spec text) = .error () →
       llmExtract model loads spec text = .error .externalService) ∧
    (model.generate_content (llmBuildPrompt spec text) = .ok "" →
       llmExtract model loads spec text = .error .noMatchFound) ∧
    (∀ resp, model.generate_content (llmBuildPrompt spec text) = .ok resp →
       resp ≠ "" →
       (firstIndexOf (pyStrip resp).toList '[' = Option.none ∨
        lastIndexOf (pyStrip resp).toList ']' = Option.none) →
       llmExtract model loads spec text = .error .externalService) ∧
    (∀ resp start last j, model.generate_content (llmBuildPrompt spec text) = .ok resp →
       resp ≠ "" →
       firstIndexOf (pyStrip resp).toList '[' = some start →
       lastIndexOf (pyStrip resp).toList ']' = some last →
       loads (pySlice (pyStrip resp) start (last + 1)) = some j →
       (∀ items, j ≠ Json.arr items) →
       llmExtract model loads spec text = .error .externalService) ∧
    (∀ resp start last items, model.generate_content (llmBuildPrompt spec text) = .ok resp →
       resp ≠ "" →
       firstIndexOf (pyStrip resp).toList '[' = some start →
       lastIndexOf (pyStrip resp).toList ']' = some last →
       loads (pySlice (pyStrip resp) start (last + 1)) = some (Json.arr items) →
       (if k > 0 then
          (((items.filter Json.truthy).map (fun it => pyStrip it.pyStr)).take k.toNat)
        else
          ((items.filter Json.truthy).map (fun it => pyStrip it.pyStr))) = [] →
       llmExtract model loads spec text = .error .noMatchFound) := by
  have hguard : ¬(text = "" ∨ pyStrip text = "") := by
    rintro (rfl | h)
    · exact htext rfl
    · exact htext h
  refine ⟨fun hg => ?_, fun hg => ?_, fun resp hg hne hbr => ?_,
    fun resp start last j hg hne hfi hla hld hj => ?_,
    fun resp start last items hg hne hfi hla hld hres => ?_⟩
  · rw [llmExtract, if_neg hguard, hg]
  · rw [llmExtract, if_neg hguard, hg]
    rfl
  · have hp : llmParseResponse loads spec resp = .error .externalService := by
      rw [llmParseResponse]
      simp only [hk]
      rw [llmParseListResponse]
      rcases hbr with hbr | hbr
      · rw [hbr]
      · rw [hbr]
        cases hfi2 : firstIndexOf (pyStrip resp).toList '[' <;> rfl
    rw [llmExtract, if_neg hguard, hg]
    simp only [if_neg hne, hp]
  · have hp : llmParseResponse loads spec resp = .error .externalService := by
      rw [llmParseResponse]
      simp only [hk]
      rw [llmParseListResponse, hfi, hla]
      simp only [hld]
    rw [llmExtract, if_neg hguard, hg]
    simp only [if_neg hne, hp]
  · have hp : llmParseResponse loads spec resp = .error .noMatchFound := by
      rw [llmParseResponse]
      simp only [hk]
      rw [llmParseListResponse, hfi, hla]
      simp only [hld, hres]
      rfl
    rw [llmExtract, if_neg hguard, hg]
    simp only [if_neg hne, hp]

/-- Witness for C7: a raising client yields `ExternalServiceError`, and an
empty response yields `NoMatchFoundError`, both with the skills spec. -/
theorem C7_llm_list_mode_errors_witness :
    llmExtract ⟨fun _ => Except.error ()⟩ (fun _ => Option.none)
        { field_type := .SKILLS, entity_label := some "skill", top_k := some 0 }
        "Skills: Python" = .error .externalService ∧
    llmExtract ⟨fun _ => Except.ok ""⟩ (fun _ => Option.none)
        { field_type := .SKILLS, entity_label := some "skill", top_k := some 0 }
        "Skills: Python" = .error .noMatchFound :=
  ⟨(C7_llm_list_mode_errors ⟨fun _ => Except.error ()⟩ (fun _ => Option.none)
      { field_type := .SKILLS, entity_label := some "skill", top_k := some 0 }
      0 "Skills: Python" rfl (by decide)).1 rfl,
   (C7_llm_list_mode_errors ⟨fun _ => Except.ok ""⟩ (fun _ => Option.none)
      { field_type := .SKILLS, entity_label := some "skill", top_k := some 0 }
      0 "Skills: Python" rfl (by decide)).2.1 rfl⟩

/-- C10: in the generative strategy's single-value mode (`top_k = None`) the
NOT_FOUND sentinel is matched case-insensitively after trimming: any response
whose stripped, uppercased form equals `"NOT_FOUND"` raises
`NoMatchFoundError`, and every other response that is non-empty after
stripping is returned verbatim (stripped) as a one-element list. -/
theorem C10_llm_sentinel_case_insensitive (loads : String → Option Json)
    (spec : FieldSpec) (response_text : String) (hk : spec.top_k = Option.none) :
    (pyUpper (pyStrip response_text) = "NOT_FOUND" →
       llmParseResponse loads spec response_text = .error .noMatchFound) ∧
    (pyStrip response_text ≠ "" → pyUpper (pyStrip response_text) ≠ "NOT_FOUND" →
       llmParseResponse loads spec response_text = .ok [pyStrip response_text]) := by
  constructor
  · intro h
    rw [llmParseResponse]
    simp only [hk]
    rw [if_pos (Or.inl h)]
  · intro h1 h2
    rw [llmParseResponse]
    simp only [hk]
    rw [if_neg (by rintro (hc | hc) <;> [exact h2 hc; exact h1 hc])]

/-- Witness for C10: `"Not_Found"` raises the no-match failure while
`" John Doe "` yields `["John Doe"]`. -/
theorem C10_llm_sentinel_case_insensitive_witness :
    llmParseResponse (fun _ => Option.none)
        { field_type := FieldType.NAME, top_k := Option.none } "Not_Found" =
      .error .noMatchFound ∧
    llmParseResponse (fun _ => Option.none)
        { field_type := FieldType.NAME, top_k := Option.none } " John Doe " =
      .ok ["John Doe"] := by
  constructor
  · exact (C10_llm_sentinel_case_insensitive (fun _ => Option.none)
      { field_type := FieldType.NAME, top_k := Option.none } "Not_Found" rfl).1
      (by decide)
  · exact ((C10_llm_sentinel_case_insensitive (fun _ => Option.none)
      { field_type := FieldType.NAME, top_k := Option.none } " John Doe " rfl).2
      (by decide) (by decide)).trans (by rfl)

/-- C8: the (spec-modelled) EmailExtractor delegates to its single wrapped
strategy on the stripped text, takes `candidates[0]`, validates it against the
strict email-format pattern, and fails with `FieldExtractionError` when that
candidate's format is invalid even though a candidate was found; the design's
scenario-C candidate `"a@b.c"` (one-character TLD) is invalid, while
`"john@example.com"` is valid. -/
theorem C8_email_extractor_strict_format
    (strategy : String → Except PyErr (List String)) (text : String)
    (c : String) (rest : List String)
    (hlen : ¬(pyStrip text).length < 5)
    (hs : strategy (pyStrip text) = .ok (c :: rest)) :
    (isValidEmail c = true → emailExtract strategy text = .ok c) ∧
    (isValidEmail c = false → emailExtract strategy text = .error .fieldExtraction) ∧
    isValidEmail "a@b.c" = false ∧
    isValidEmail "john@example.com" = true := by
  refine ⟨fun hv => ?_, fun hv => ?_, by decide, by decide⟩
  · rw [emailExtract]
    simp only [if_neg hlen, hs, hv, if_true]
  · rw [emailExtract]
    simp only [if_neg hlen, hs, hv]
    rfl

/-- Witness for C8, the design's E2E scenario C: the wrapped strategy yields
`["a@b.c"]`, whose TLD is too short, and the extractor fails with
`FieldExtractionError`. -/
theorem C8_email_extractor_strict_format_witness :
    emailExtract (fun _ => Except.ok ["a@b.c"]) "Contact: a@b.c" =
      .error .fieldExtraction :=
  (C8_email_extractor_strict_format (fun _ => Except.ok ["a@b.c"])
    "Contact: a@b.c" "a@b.c" [] (by decide) rfl).2.1 (by decide)

/-- C9: for every supported (field type, strategy type) pair — given a regex
engine that compiles the factory's email pattern — the factory constructs a
strategy bound at construction time to the field-appropriate spec, and the
built strategy satisfies the uniform text-only capability contract of §4.2
(`extract : String → Except PyErr (List String)`), including its uniform
precondition that blank text fails with `NoMatchFoundError`.  The NER variant
is the spec-modelled, construction-bound form (see `Strategy`). -/
theorem C9_factory_supported_pairs (deps : ExternalDeps)
    (ft : FieldType) (st : StrategyType)
    (hsupp : st ∈ SUPPORTED_STRATEGIES ft)
    (hengine : ∀ p, ∃ cp, deps.engine.compile p = .ok cp) :
    ∃ s : Strategy, createExtractorStrategy deps ft st = .ok s ∧
      s.boundSpec = createFieldSpec ft ∧
      ∀ text, pyStrip text = "" → s.extract text = .error .noMatchFound := by
  cases ft <;> cases st
  case NAME.REGEX => exact absurd hsupp (by decide)
  case SKILLS.REGEX => exact absurd hsupp (by decide)
  case NAME.NER =>
    refine ⟨.ner deps.nerModel Option.none (createFieldSpec .NAME), rfl, rfl,
      fun text htext => ?_⟩
    show nerExtract deps.nerModel Option.none (createFieldSpec .NAME) text = _
    rw [nerExtract, if_pos (Or.inr htext)]
  case EMAIL.NER =>
    refine ⟨.ner deps.nerModel Option.none (createFieldSpec .EMAIL), rfl, rfl,
      fun text htext => ?_⟩
    show nerExtract deps.nerModel Option.none (createFieldSpec .EMAIL) text = _
    rw [nerExtract, if_pos (Or.inr htext)]
  case SKILLS.NER =>
    refine ⟨.ner deps.nerModel Option.none (createFieldSpec .SKILLS), rfl, rfl,
      fun text htext => ?_⟩
    show nerExtract deps.nerModel Option.none (createFieldSpec .SKILLS) text = _
    rw [nerExtract, if_pos (Or.inr htext)]
  case NAME.LLM =>
    refine ⟨.llm deps.llmModel deps.loads (createFieldSpec .NAME), rfl, rfl,
      fun text htext => ?_⟩
    show llmExtract deps.llmModel deps.loads (createFieldSpec .NAME) text = _
    rw [llmExtract, if_pos (Or.inr htext)]
  case EMAIL.LLM =>
    refine ⟨.llm deps.llmModel deps.loads (createFieldSpec .EMAIL), rfl, rfl,
      fun text htext => ?_⟩
    show llmExtract deps.llmModel deps.loads (createFieldSpec .EMAIL) text = _
    rw [llmExtract, if_pos (Or.inr htext)]
  case SKILLS.LLM =>
    refine ⟨.llm deps.llmModel deps.loads (createFieldSpec .SKILLS), rfl, rfl,
      fun text htext => ?_⟩
    show llmExtract deps.llmModel deps.loads (createFieldSpec .SKILLS) text = _
    rw [llmExtract, if_pos (Or.inr htext)]
  case EMAIL.REGEX =>
    obtain ⟨cp, hcp⟩ := hengine emailRegexPattern
    have hcompiled : compilePatterns deps.engine [emailRegexPattern] = .ok [cp] := by
      simp only [compilePatterns, hcp]
      rfl
    have hinit : RegexExtractionStrategy.init deps.engine
        { field_type := FieldType.EMAIL, regex_patterns := some [emailRegexPattern],
          entity_label := some "email", top_k := Option.none } =
        .ok ⟨{ field_type := FieldType.EMAIL, regex_patterns := some [emailRegexPattern],
               entity_label := some "email", top_k := Option.none }, [cp]⟩ := by
      rw [RegexExtractionStrategy.init]
      simp only [hcompiled]
      rfl
    refine ⟨.regex ⟨createFieldSpec .EMAIL, [cp]⟩, ?_, rfl, fun text htext => ?_⟩
    · show createStrategy deps .REGEX (createFieldSpec .EMAIL) = _
      rw [createStrategy]
      simp only [createFieldSpec]
      rw [hinit]
      rfl
    · show RegexExtractionStrategy.extract ⟨createFieldSpec .EMAIL, [cp]⟩ text = _
      rw [RegexExtractionStrategy.extract, if_pos (Or.inr htext)]

/-- Witness for C9: with concrete trivial collaborators, the EMAIL×REGEX pair
constructs a strategy bound to the email spec whose extraction of blank text
fails with `NoMatchFoundError`. -/
theorem C9_factory_supported_pairs_witness :
    ∃ s : Strategy,
      createExtractorStrategy
          ⟨⟨fun _ => Except.ok ⟨fun _ => FindallResult.strs []⟩⟩,
           ⟨fun _ _ => Except.ok []⟩, ⟨fun _ => Except.ok ""⟩,
           fun _ => Option.none⟩
          FieldType.EMAIL StrategyType.REGEX = .ok s ∧
      s.boundSpec = createFieldSpec FieldType.EMAIL ∧
      ∀ text, pyStrip text = "" → s.extract text = .error .noMatchFound :=
  C9_factory_supported_pairs
    ⟨⟨fun _ => Except.ok ⟨fun _ => FindallResult.strs []⟩⟩,
     ⟨fun _ _ => Except.ok []⟩, ⟨fun _ => Except.ok ""⟩,
     fun _ => Option.none⟩
    FieldType.EMAIL StrategyType.REGEX (by decide)
    (fun p => ⟨⟨fun _ => FindallResult.strs []⟩, rfl⟩)
